import Mathlib

/-
Verification development for the WorkArena compositional-task engine
(src/src/browsergym/workarena/tasks/complex_tasks).

Python strings are embedded as `List Char`; the Python operators used by the
code are embedded as executable functions below:
  - `needle in text`   -> `hasSub`  (contiguous case-sensitive substring)
  - `s1 < s2` on str   -> `lexLt`   (lexicographic on code points)
  - `s.zfill(w)`       -> `zfill`
Transcripts are lists of `ChatMessage`; reward values are rationals.
-/

abbrev Str := List Char

/-- Embeds the test `a.isPrefixOf b`-style leading-match used to define the
Python substring operator: true when the first list starts the second. -/
def leadMatch : Str → Str → Bool
  | [], _ => true
  | _ :: _, [] => false
  | a :: as, b :: bs => a == b && leadMatch as bs

/-- Embeds the Python operator `needle in haystack` on strings: contiguous,
case-sensitive substring occurrence (the empty needle occurs everywhere). -/
def hasSub (needle : Str) : Str → Bool
  | [] => leadMatch needle []
  | c :: rest => leadMatch needle (c :: rest) || hasSub needle rest

/-- Embeds the Python comparison `s1 < s2` on strings: lexicographic
comparison of code points. -/
def lexLt : Str → Str → Bool
  | [], [] => false
  | [], _ :: _ => true
  | _ :: _, [] => false
  | a :: as, b :: bs => if a < b then true else if b < a then false else lexLt as bs

theorem lexLt_self (s : Str) : lexLt s s = false := by
  induction s with
  | nil => rfl
  | cons a as ih => simp [lexLt, ih]

/-- A transcript entry. The validators accept either a `{role, message}` dict
(reading its `message` field via `.get("message", "")`) or a raw string. -/
inductive ChatMessage where
  | dict (role : Str) (message : Str)
  | raw (text : Str)
  deriving DecidableEq

/-- Embeds the per-message extraction in the validate loops:
`message.get("message", "")` for dicts, the string itself otherwise. -/
def messageText : ChatMessage → Str
  | ChatMessage.dict _ m => m
  | ChatMessage.raw t => t

/-- The `info` mapping returned by setup/validate (`{}` in every code path
under study). -/
abbrev InfoT := List (Str × Str)

/-- The `(reward, done, message, info)` tuple returned by every validate. -/
structure ValidateOutcome where
  reward : ℚ
  done : Bool
  message : Str
  info : InfoT
  deriving DecidableEq

/-- A hardware record as consulted by `CompareHardwareDate`: the fields the
task logic reads (`serial_number`, `purchase_date`, `model`). -/
structure HardwareRecord where
  serial_number : Str
  purchase_date : Str
  model : Str
  deriving DecidableEq

/-- The state of a `CompareHardwareDate` task as consulted by
`_get_selected_hardware`, `cheat` and `validate`: the `earlier` polarity fixed
at construction and the two created hardware records. -/
structure CompareHardwareDate where
  earlier : Bool
  hardware1 : HardwareRecord
  hardware2 : HardwareRecord
  deriving DecidableEq

/-- Embeds `CompareHardwareDate._get_selected_hardware` (comparison.py
255-269): strict `<` / `>` on the purchase-date strings, falling through to
`hardware2` when neither strict comparison holds. -/
def getSelectedHardware (t : CompareHardwareDate) : HardwareRecord :=
  let date1 := t.hardware1.purchase_date
  let date2 := t.hardware2.purchase_date
  if t.earlier then
    if lexLt date1 date2 then t.hardware1 else t.hardware2
  else
    if lexLt date2 date1 then t.hardware1 else t.hardware2

/-- Embeds one iteration of the validate scan loop (comparison.py 294-303):
each flag is set to `True` when its pattern occurs in the message text and is
kept otherwise. -/
def scanStep (serial date : Str) (acc : Bool × Bool) (m : ChatMessage) : Bool × Bool :=
  let text := messageText m
  let found_serial := if hasSub serial text then true else acc.1
  let found_date := if hasSub date text then true else acc.2
  (found_serial, found_date)

/-- Embeds `CompareHardwareDate.validate` (comparison.py 284-313). The source
mutates neither `self` nor `chat_messages`; the embedding threads both through
so the frame condition is part of the function's type: the returned state and
transcript are the ones the source leaves behind. -/
def CompareHardwareDate.validate (t : CompareHardwareDate) (chat : List ChatMessage) :
    ValidateOutcome × CompareHardwareDate × List ChatMessage :=
  let correct := getSelectedHardware t
  let flags := chat.foldl (scanStep correct.serial_number correct.purchase_date) (false, false)
  let out : ValidateOutcome :=
    if flags.1 && flags.2 then
      ⟨1, true, "Correct hardware serial number and date identified.".data, []⟩
    else if flags.1 then
      ⟨1/2, false, "Hardware serial number found but date not mentioned.".data, []⟩
    else if flags.2 then
      ⟨1/2, false, "Purchase date found but hardware serial number not mentioned.".data, []⟩
    else
      ⟨0, false, "Neither hardware serial number nor date were mentioned.".data, []⟩
  (out, t, chat)

/-- The scan loop computes exactly the two independent any-message occurrence
flags. -/
theorem scan_foldl_eq (serial date : Str) (chat : List ChatMessage) (a b : Bool) :
    chat.foldl (scanStep serial date) (a, b) =
      (a || chat.any (fun m => hasSub serial (messageText m)),
       b || chat.any (fun m => hasSub date (messageText m))) := by
  induction chat generalizing a b with
  | nil => simp
  | cons m rest ih =>
      rw [List.foldl_cons, List.any_cons]
      cases hs : hasSub serial (messageText m) <;>
        cases hd : hasSub date (messageText m) <;>
          simp [scanStep, hs, hd, ih, Bool.or_comm, Bool.or_left_comm]

/-- C1: for every `CompareHardwareDate` task state and every transcript,
`validate` scans the transcript message by message for case-sensitive
substring occurrence of the correct record's identifier and of its comparator
attribute value, each independently; the reward is 1 when both are found, 1/2
when exactly one is found, 0 when neither is found; `done` is true exactly
when both are found, and `done = true` holds iff `reward = 1`. -/
theorem C1_comparison_validate_scoring (t : CompareHardwareDate) (chat : List ChatMessage) :
    ((CompareHardwareDate.validate t chat).1.reward =
      (if (chat.any fun m => hasSub (getSelectedHardware t).serial_number (messageText m)) &&
          (chat.any fun m => hasSub (getSelectedHardware t).purchase_date (messageText m)) then 1
       else if (chat.any fun m => hasSub (getSelectedHardware t).serial_number (messageText m)) ||
          (chat.any fun m => hasSub (getSelectedHardware t).purchase_date (messageText m)) then 1/2
       else 0)) ∧
    ((CompareHardwareDate.validate t chat).1.done =
      ((chat.any fun m => hasSub (getSelectedHardware t).serial_number (messageText m)) &&
       (chat.any fun m => hasSub (getSelectedHardware t).purchase_date (messageText m)))) ∧
    (((CompareHardwareDate.validate t chat).1.done = true) ↔
      ((CompareHardwareDate.validate t chat).1.reward = 1)) := by
  have h := scan_foldl_eq (getSelectedHardware t).serial_number
    (getSelectedHardware t).purchase_date chat false false
  simp only [Bool.false_or] at h
  simp only [CompareHardwareDate.validate, h]
  cases hs : chat.any (fun m => hasSub (getSelectedHardware t).serial_number (messageText m)) <;>
    cases hd : chat.any (fun m => hasSub (getSelectedHardware t).purchase_date (messageText m)) <;>
      simp only [hs, hd, Bool.and_self, Bool.and_false, Bool.and_true, Bool.false_and,
        Bool.true_and, Bool.or_self, Bool.or_false, Bool.or_true, Bool.false_or, Bool.true_or,
        if_true, if_false, Bool.false_eq_true, Bool.true_eq_false] <;>
      norm_num

/-- C9: `CompareHardwareDate.validate` is read-only: it returns the task state
and the transcript unchanged, and running it again on what it returns yields
the identical outcome (same result on the same transcript, twice). -/
theorem C9_validate_read_only (t : CompareHardwareDate) (chat : List ChatMessage) :
    (CompareHardwareDate.validate t chat).2.1 = t ∧
    (CompareHardwareDate.validate t chat).2.2 = chat ∧
    CompareHardwareDate.validate (CompareHardwareDate.validate t chat).2.1
        (CompareHardwareDate.validate t chat).2.2 =
      CompareHardwareDate.validate t chat := by
  exact ⟨rfl, rfl, rfl⟩

/-- A change-request record as consulted by `CompareChangeRequestPriority`:
`number` and the priority value. The source reads the record's priority field
through `int(...)`; the field is embedded post-conversion as an integer. -/
structure ChangeRecord where
  number : Str
  priority : Int
  deriving DecidableEq

/-- The state of a `CompareChangeRequestPriority` task as consulted by
`_get_selected_change`: the `higher` polarity fixed at construction and the
two created change-request records. -/
structure CompareChangeRequestPriority where
  higher : Bool
  change1 : ChangeRecord
  change2 : ChangeRecord
  deriving DecidableEq

/-- Embeds `CompareChangeRequestPriority._get_selected_change` (comparison.py
477-492): strict `<` / `>` on the integer priorities (lower number means
higher priority), falling through to `change2` when neither holds. -/
def getSelectedChange (t : CompareChangeRequestPriority) : ChangeRecord :=
  let priority1 := t.change1.priority
  let priority2 := t.change2.priority
  if t.higher then
    if priority1 < priority2 then t.change1 else t.change2
  else
    if priority1 > priority2 then t.change1 else t.change2

/-- C3: when the two candidate records have equal comparator values, the
record-selection helpers return the second record for both polarities of the
comparator: `_get_selected_hardware` with equal purchase dates and
`_get_selected_change` with equal priorities both fall through the strict
comparison to the second operand, whatever the polarity flag is. -/
theorem C3_tie_selects_second (h : CompareHardwareDate) (c : CompareChangeRequestPriority)
    (hdate : h.hardware1.purchase_date = h.hardware2.purchase_date)
    (hprio : c.change1.priority = c.change2.priority) :
    getSelectedHardware h = h.hardware2 ∧ getSelectedChange c = c.change2 := by
  constructor
  · simp only [getSelectedHardware]
    rw [hdate]
    cases h.earlier <;> simp [lexLt_self]
  · simp only [getSelectedChange]
    rw [hprio]
    cases c.higher <;> simp

/-- Witness for C3 at a concrete tied input: two hardware records sharing the
purchase date 2023-01-01 and two change records sharing priority 2. -/
theorem C3_tie_selects_second_witness :
    getSelectedHardware
        ⟨true, ⟨"SN-A".data, "2023-01-01".data, "ThinkPad".data⟩,
          ⟨"SN-B".data, "2023-01-01".data, "MacBook".data⟩⟩ =
      ⟨"SN-B".data, "2023-01-01".data, "MacBook".data⟩ ∧
    getSelectedChange ⟨false, ⟨"CHG-A".data, 2⟩, ⟨"CHG-B".data, 2⟩⟩ = ⟨"CHG-B".data, 2⟩ :=
  C3_tie_selects_second _ _ rfl rfl

/-- The capability surface of a branch subtask as consumed by
`ConditionalTask` (conditional.py 25-71): `setup` returns the goal fragment
plus info and its effect on the environment; `cheat` may act on the
environment and append transcript messages; `validate` is a read-only
inspection; `teardown` releases resources and may fail (a raised Python
exception is embedded as `Except.error` carrying its message). -/
structure BranchTask (Env : Type) where
  setupFn : Env → Bool → (Str × InfoT) × Env
  cheatFn : Env → List ChatMessage → Env × List ChatMessage
  validateFn : Env → List ChatMessage → ValidateOutcome
  teardownFn : Env → Except Str Env

/-- The fields of `ConditionalTask` (conditional.py 25-40). The source
attribute names `true_branch_prefix` / `false_branch_prefix` carry the suffix
`_text` here. -/
structure ConditionalTask (Env : Type) where
  true_branch_task : BranchTask Env
  true_branch_prefix_text : Str
  false_branch_task : BranchTask Env
  false_branch_prefix_text : Str
  is_validated : Bool
  used_in_level_2 : Bool

/-- Embeds `ConditionalTask.__init__` (conditional.py 28-40): stores the two
branch tasks with their descriptive prefixes and hardcodes
`is_validated = False`, `used_in_level_2 = True`. -/
def mkConditionalTask {Env : Type} (true_branch_task : BranchTask Env)
    (true_branch_prefix_text : Str) (false_branch_task : BranchTask Env)
    (false_branch_prefix_text : Str) : ConditionalTask Env :=
  { true_branch_task := true_branch_task
    true_branch_prefix_text := true_branch_prefix_text
    false_branch_task := false_branch_task
    false_branch_prefix_text := false_branch_prefix_text
    is_validated := false
    used_in_level_2 := true }

/-- Embeds `ConditionalTask.setup` (conditional.py 42-57): sets up the true
branch, then the false branch (both act on the shared environment, in that
order), prepends each branch's prefix to its goal, and joins the two fragments
with `" ".join`, returning an empty info dict. -/
def ConditionalTask.setup {Env : Type} (t : ConditionalTask Env) (env : Env) (do_start : Bool) :
    (Str × InfoT) × Env :=
  let tres := t.true_branch_task.setupFn env do_start
  let fres := t.false_branch_task.setupFn tres.2 do_start
  let true_branch_goal := t.true_branch_prefix_text ++ tres.1.1
  let false_branch_goal := t.false_branch_prefix_text ++ fres.1.1
  ((true_branch_goal ++ " ".data ++ false_branch_goal, []), fres.2)

/-- Embeds `ConditionalTask.teardown` (conditional.py 59-61): tears down the
true branch, then the false branch, with no exception handling around either
call. -/
def ConditionalTask.teardown {Env : Type} (t : ConditionalTask Env) (env : Env) :
    Except Str Env :=
  match t.true_branch_task.teardownFn env with
  | Except.error err => Except.error err
  | Except.ok env1 => t.false_branch_task.teardownFn env1

/-- Embeds `ConditionalTask.validate` (conditional.py 63-67): returns the true
branch task's validate result. -/
def ConditionalTask.validate {Env : Type} (t : ConditionalTask Env) (env : Env)
    (chat : List ChatMessage) : ValidateOutcome :=
  t.true_branch_task.validateFn env chat

/-- Embeds `ConditionalTask.cheat` (conditional.py 69-71): returns the true
branch task's cheat result. -/
def ConditionalTask.cheat {Env : Type} (t : ConditionalTask Env) (env : Env)
    (chat : List ChatMessage) : Env × List ChatMessage :=
  t.true_branch_task.cheatFn env chat

/-- C5: `ConditionalTask.validate` and `ConditionalTask.cheat` delegate
exclusively to the true branch: validate returns exactly the true branch
task's validate result, cheat invokes only the true branch task's cheat, and
both results are unchanged under any replacement of the false branch — the
false branch task is never consulted, so solving only the false branch cannot
change the reported result, while solving the true branch alone already yields
the result of solving both. -/
theorem C5_conditional_delegates_true_branch {Env : Type} (t : ConditionalTask Env) (env : Env)
    (chat : List ChatMessage) (fb : BranchTask Env) (fp : Str) :
    ConditionalTask.validate t env chat = t.true_branch_task.validateFn env chat ∧
    ConditionalTask.cheat t env chat = t.true_branch_task.cheatFn env chat ∧
    ConditionalTask.validate { t with false_branch_task := fb, false_branch_prefix_text := fp }
        env chat = ConditionalTask.validate t env chat ∧
    ConditionalTask.cheat { t with false_branch_task := fb, false_branch_prefix_text := fp }
        env chat = ConditionalTask.cheat t env chat :=
  ⟨rfl, rfl, rfl, rfl⟩

/-- C6: `ConditionalTask.setup` initializes both branches — the resulting
environment is the false branch's setup effect applied after the true
branch's — and returns as goal exactly the true prefix + true goal, a single
space, and the false prefix + false goal, with an empty info dict. -/
theorem C6_conditional_setup_goal {Env : Type} (t : ConditionalTask Env) (env : Env)
    (do_start : Bool) :
    (ConditionalTask.setup t env do_start).1.1 =
      (t.true_branch_prefix_text ++ (t.true_branch_task.setupFn env do_start).1.1) ++
        " ".data ++
        (t.false_branch_prefix_text ++
          (t.false_branch_task.setupFn (t.true_branch_task.setupFn env do_start).2
              do_start).1.1) ∧
    (ConditionalTask.setup t env do_start).1.2 = ([] : InfoT) ∧
    (ConditionalTask.setup t env do_start).2 =
      (t.false_branch_task.setupFn (t.true_branch_task.setupFn env do_start).2 do_start).2 :=
  ⟨rfl, rfl, rfl⟩

/-- A concrete branch task over a counter environment whose teardown raises
(its other operations are inert). -/
def tearFailBranch : BranchTask Nat :=
  { setupFn := fun env _ => (([], []), env)
    cheatFn := fun env chat => (env, chat)
    validateFn := fun _ _ => ⟨0, false, [], []⟩
    teardownFn := fun _ => Except.error "boom".data }

/-- A concrete branch task over a counter environment whose teardown succeeds
and bumps the counter by one, making its execution observable. -/
def tearCountBranch : BranchTask Nat :=
  { setupFn := fun env _ => (([], []), env)
    cheatFn := fun env chat => (env, chat)
    validateFn := fun _ _ => ⟨0, false, [], []⟩
    teardownFn := fun env => Except.ok (env + 1) }

/-- A concrete branch task over a counter environment whose teardown succeeds
and bumps the counter by five. -/
def tearOkBranch : BranchTask Nat :=
  { setupFn := fun env _ => (([], []), env)
    cheatFn := fun env chat => (env, chat)
    validateFn := fun _ _ => ⟨0, false, [], []⟩
    teardownFn := fun env => Except.ok (env + 5) }

/-- C7 counterexample: with a true branch whose teardown raises,
`ConditionalTask.teardown` propagates the exception instead of not raising,
and the false branch's teardown (which would have bumped the counter) never
runs — refuting the claim that a true-branch teardown failure is swallowed and
does not prevent teardown of the other branch. -/
theorem C7_teardown_raises_counterexample :
    ConditionalTask.teardown (mkConditionalTask tearFailBranch [] tearCountBranch []) 0 =
      Except.error "boom".data := by
  rfl

/-- C7 as amended: `ConditionalTask.teardown` tears down the true branch and
then the false branch, in that order, when the true branch's teardown
succeeds; it installs no exception handling, so a true-branch teardown failure
propagates unchanged and the false branch is not torn down. -/
theorem C7_teardown_order {Env : Type} (t : ConditionalTask Env) (env : Env) :
    (∀ env1, t.true_branch_task.teardownFn env = Except.ok env1 →
      ConditionalTask.teardown t env = t.false_branch_task.teardownFn env1) ∧
    (∀ err, t.true_branch_task.teardownFn env = Except.error err →
      ConditionalTask.teardown t env = Except.error err) := by
  constructor <;> intro x hx <;> simp [ConditionalTask.teardown, hx]

/-- Witness for C7's amended theorem at a concrete input: a true branch whose
teardown succeeds with counter 5, after which the false branch's teardown
runs on that counter. -/
theorem C7_teardown_order_witness :
    ConditionalTask.teardown (mkConditionalTask tearOkBranch [] tearCountBranch []) 0 =
      tearCountBranch.teardownFn 5 :=
  (C7_teardown_order (mkConditionalTask tearOkBranch [] tearCountBranch []) 0).1 5 rfl

/-- One element of a composite sequence as seen by the orchestrator's
validation aggregation: whether it is marked `is_validated` and whether its
own validate call reports success. -/
structure CompositeElem where
  is_validated : Bool
  succeeds : Bool
  deriving DecidableEq

/-- Modelled from the spec: the orchestrator's default validation aggregation
(`CompositionalTask.validate`, not under src/) — "only elements with
`is_validated=True` contribute ... success iff every validated element's own
validate call reports success". -/
def compositeSuccess (elems : List CompositeElem) : Bool :=
  elems.all (fun e => !e.is_validated || e.succeeds)

/-- C10: every `ConditionalTask` is constructed with `is_validated = False`
and `used_in_level_2 = True`, and under the orchestrator's default
aggregation, in which only elements with `is_validated = True` contribute,
inserting a `ConditionalTask`-flagged element anywhere in a composite
sequence leaves the composite-level validation result unchanged, whatever its
own (true-branch-delegated) validate result is. -/
theorem C10_conditional_never_contributes {Env : Type} (tb fb : BranchTask Env)
    (tp fp : Str) (xs ys : List CompositeElem) (ownResult : Bool) :
    (mkConditionalTask tb tp fb fp).is_validated = false ∧
    (mkConditionalTask tb tp fb fp).used_in_level_2 = true ∧
    compositeSuccess
        (xs ++ ⟨(mkConditionalTask tb tp fb fp).is_validated, ownResult⟩ :: ys) =
      compositeSuccess (xs ++ ys) := by
  refine ⟨rfl, rfl, ?_⟩
  simp [compositeSuccess, mkConditionalTask, List.all_append]

/-- A hardware configuration candidate (an entry of
`CreateHardwareAssetTask.all_configs()`, which lives outside src/): the
`template_record` fields the comparison logic consults (`model`,
`purchase_date`), with the remaining identifying content collapsed into
`rest` — record equality compares all of it, as Python dict equality does. -/
structure HardwareTemplate where
  model : Str
  purchase_date : Str
  rest : Str
  deriving DecidableEq

/-- Embeds the two-draw sampling pattern of every comparison `_get_config`
(comparison.py 161-166 and its analogues): the first candidate is taken at
the first random index; every candidate equal to it is filtered out; the
second candidate is taken at the second random index from the remainder. The
indices embed the two `self.random.choice(len(...))` draws; `none` embeds the
draw failing on an empty list. -/
def sampleTwoConfigs {α : Type} [DecidableEq α] (pool : List α) (i j : Nat) :
    Option (α × α) :=
  match pool.get? i with
  | none => none
  | some c1 =>
    match (pool.filter (fun c => c != c1)).get? j with
    | none => none
    | some c2 => some (c1, c2)

/-- C8: whenever the two-draw sampling succeeds, the second drawn
configuration is never equal to the first: it is drawn from the pool with
every candidate equal to the first draw excluded (not by redrawing with
replacement). -/
theorem C8_second_draw_excludes_first {α : Type} [DecidableEq α] (pool : List α)
    (i j : Nat) (c1 c2 : α) (h : sampleTwoConfigs pool i j = some (c1, c2)) :
    c2 ≠ c1 ∧ c2 ∈ pool.filter (fun c => c != c1) := by
  unfold sampleTwoConfigs at h
  cases h1 : pool.get? i with
  | none => rw [h1] at h; simp at h
  | some a =>
    rw [h1] at h
    dsimp only at h
    cases h2 : (pool.filter (fun c => c != a)).get? j with
    | none => rw [h2] at h; simp at h
    | some b =>
      rw [h2] at h
      simp only [Option.some.injEq, Prod.mk.injEq] at h
      obtain ⟨ha, hb⟩ := h
      subst ha
      subst hb
      have hmem := List.get?_mem h2
      refine ⟨?_, hmem⟩
      have hp := (List.mem_filter.mp hmem).2
      simpa [bne_iff_ne] using hp

/-- Witness for C8 at a concrete input: a two-candidate pool, both indices 0;
the second draw is the second candidate, distinct from the first. -/
theorem C8_second_draw_excludes_first_witness :
    (⟨"Apple MacBook".data, "2022-05-05".data, "B".data⟩ : HardwareTemplate) ≠
        ⟨"Dell Latitude".data, "2023-01-01".data, "A".data⟩ ∧
    (⟨"Apple MacBook".data, "2022-05-05".data, "B".data⟩ : HardwareTemplate) ∈
      List.filter
        (fun c => c != ⟨"Dell Latitude".data, "2023-01-01".data, "A".data⟩)
        [⟨"Dell Latitude".data, "2023-01-01".data, "A".data⟩,
         ⟨"Apple MacBook".data, "2022-05-05".data, "B".data⟩] :=
  C8_second_draw_excludes_first
    [⟨"Dell Latitude".data, "2023-01-01".data, "A".data⟩,
     ⟨"Apple MacBook".data, "2022-05-05".data, "B".data⟩] 0 0 _ _ (by decide)

/-- Modelled from the spec: the record store client (`table_api_call`, not
under src/) "returns a created record's assigned fields"; creating a hardware
record is embedded as echoing the posted fields, so the created record
carries the posted UUID-based serial number together with the template's
purchase date and model (comparison.py 168-204). -/
def postHardwareRecord (template : HardwareTemplate) (serial : Str) : HardwareRecord :=
  { serial_number := serial
    purchase_date := template.purchase_date
    model := template.model }

/-- One element of the sampled subtask sequence, abstracted to the fields the
claims consult: the concrete task class, the filter values of its fixed
config, and its validation/visibility flags. -/
structure SubtaskDesc where
  kind : Str
  filter_values : List Str
  is_validated : Bool
  used_in_level_2 : Bool
  deriving DecidableEq

/-- Embeds the task list built by `CompareHardwareDate._get_config`
(comparison.py 206-243): a non-validated `AllMenuTask` navigation step
followed by one validated `FilterHardwareListTask` per created record, each
filtering on that record's serial number. -/
def hardwareCompareTaskList (serial1 serial2 : Str) : List SubtaskDesc :=
  [⟨"AllMenuTask".data, [], false, true⟩,
   ⟨"FilterHardwareListTask".data, [serial1], true, true⟩,
   ⟨"FilterHardwareListTask".data, [serial2], true, true⟩]

/-- What `CompareHardwareDate._get_config` leaves behind: the returned subtask
sequence and the two records stored on `self` for the task description. -/
structure HardwareConfigOutcome where
  tasks : List SubtaskDesc
  hardware1 : HardwareRecord
  hardware2 : HardwareRecord
  deriving DecidableEq

/-- Embeds `CompareHardwareDate._get_config` (comparison.py 153-249):
filter the candidate pool to configs with a purchase date, draw two distinct
candidates, generate one `f"SN-{uuid4()}"` serial number per record, create
the two records, and build the subtask sequence filtering on the created
serial numbers. The index draws `i`, `j` embed the two `self.random.choice`
calls (the seeded random source of the CompositionalTask base, which is not
under src/, is deterministic in the seed per the spec, so a same-seed re-run
repeats `i` and `j`); `u0`, `u1` embed the two `uuid4()` results, which are
drawn fresh per call independently of the task seed. -/
def hardwareGetConfig (pool : List HardwareTemplate) (i j : Nat) (u0 u1 : Str) :
    Option HardwareConfigOutcome :=
  let eligible := pool.filter (fun c => !c.purchase_date.isEmpty)
  match sampleTwoConfigs eligible i j with
  | none => none
  | some (c1, c2) =>
    let serial1 := "SN-".data ++ u0
    let serial2 := "SN-".data ++ u1
    let hardware1_record := postHardwareRecord c1 serial1
    let hardware2_record := postHardwareRecord c2 serial2
    some { tasks := hardwareCompareTaskList hardware1_record.serial_number
             hardware2_record.serial_number
           hardware1 := hardware1_record
           hardware2 := hardware2_record }

/-- Embeds the level-2 `task_description` built by
`CompareHardwareDate.setup_goal` (comparison.py 130-151): the goal text
surfaced to the agent, embedding each record's serial number, model and
purchase date. -/
def hardwareTaskDescription (earlier : Bool) (h1 h2 : HardwareRecord) : Str :=
  "Referring to company protocol \"Comparing hardware purchase dates\", find the hardware asset that was purchased ".data ++
  (if earlier then "earlier".data else "later".data) ++
  " between the following two assets:\n".data ++
  "\nHardware 1:\n- Serial Number: ".data ++ h1.serial_number ++
  "\n- Model: ".data ++ h1.model ++
  "\n- Purchase Date: ".data ++ h1.purchase_date ++
  "\n\nHardware 2:\n- Serial Number: ".data ++ h2.serial_number ++
  "\n- Model: ".data ++ h2.model ++
  "\n- Purchase Date: ".data ++ h2.purchase_date ++ "\n".data

/-- A concrete two-candidate pool for the determinism analysis. -/
def cePool : List HardwareTemplate :=
  [⟨"Dell Latitude".data, "2023-01-01".data, "A".data⟩,
   ⟨"Apple MacBook".data, "2022-05-05".data, "B".data⟩]

set_option maxRecDepth 8192 in
/-- C2 counterexample: two runs of `_get_config` with the same candidate pool
and the same seed (hence the same random index draws 0, 0) but the fresh
`uuid4()` values of each run ("aaaa"/"bbbb" versus "cccc"/"dddd") produce
different subtask sequences and different goal texts: the serial numbers
embedded in the filter subtasks and in the task description differ. -/
theorem C2_uuid_breaks_determinism_counterexample :
    hardwareGetConfig cePool 0 0 "aaaa".data "bbbb".data ≠
      hardwareGetConfig cePool 0 0 "cccc".data "dddd".data ∧
    Option.map (fun r => r.tasks) (hardwareGetConfig cePool 0 0 "aaaa".data "bbbb".data) ≠
      Option.map (fun r => r.tasks) (hardwareGetConfig cePool 0 0 "cccc".data "dddd".data) ∧
    Option.map (fun r => hardwareTaskDescription true r.hardware1 r.hardware2)
        (hardwareGetConfig cePool 0 0 "aaaa".data "bbbb".data) ≠
      Option.map (fun r => hardwareTaskDescription true r.hardware1 r.hardware2)
        (hardwareGetConfig cePool 0 0 "cccc".data "dddd".data) := by
  refine ⟨by decide, by decide, by decide⟩

/-- C2 as amended: configuration sampling is deterministic in the seed only up
to the fresh UUID components. With the same pool and the same random index
draws, every seed-determined field (purchase dates, models) of the two runs
coincides, each serial number is exactly `"SN-"` followed by the run's own
uuid4 value, and the two runs' outcomes — subtask sequence and all — are
identical as soon as their uuid4 draws also coincide. -/
theorem C2_seed_determinism_up_to_uuid (pool : List HardwareTemplate) (i j : Nat)
    (u0 u1 v0 v1 : Str) (r r' : HardwareConfigOutcome)
    (h : hardwareGetConfig pool i j u0 u1 = some r)
    (h' : hardwareGetConfig pool i j v0 v1 = some r') :
    r.hardware1.purchase_date = r'.hardware1.purchase_date ∧
    r.hardware2.purchase_date = r'.hardware2.purchase_date ∧
    r.hardware1.model = r'.hardware1.model ∧
    r.hardware2.model = r'.hardware2.model ∧
    r.hardware1.serial_number = "SN-".data ++ u0 ∧
    r.hardware2.serial_number = "SN-".data ++ u1 ∧
    (u0 = v0 → u1 = v1 → r = r') := by
  unfold hardwareGetConfig at h h'
  dsimp only at h h'
  cases hs : sampleTwoConfigs (pool.filter fun c => !c.purchase_date.isEmpty) i j with
  | none =>
      rw [hs] at h
      dsimp only at h
      exact Option.noConfusion h
  | some p =>
      obtain ⟨c1, c2⟩ := p
      rw [hs] at h h'
      dsimp only at h h'
      simp only [Option.some.injEq] at h h'
      subst h
      subst h'
      refine ⟨rfl, rfl, rfl, rfl, rfl, rfl, ?_⟩
      intro e0 e1
      subst e0
      subst e1
      rfl

/-- The outcome of `hardwareGetConfig` on `cePool` with index draws 0, 0 and
uuid values "aaaa"/"bbbb". -/
def ceOutcomeA : HardwareConfigOutcome :=
  { tasks := hardwareCompareTaskList "SN-aaaa".data "SN-bbbb".data
    hardware1 := ⟨"SN-aaaa".data, "2023-01-01".data, "Dell Latitude".data⟩
    hardware2 := ⟨"SN-bbbb".data, "2022-05-05".data, "Apple MacBook".data⟩ }

/-- The outcome of `hardwareGetConfig` on `cePool` with index draws 0, 0 and
uuid values "cccc"/"dddd". -/
def ceOutcomeC : HardwareConfigOutcome :=
  { tasks := hardwareCompareTaskList "SN-cccc".data "SN-dddd".data
    hardware1 := ⟨"SN-cccc".data, "2023-01-01".data, "Dell Latitude".data⟩
    hardware2 := ⟨"SN-dddd".data, "2022-05-05".data, "Apple MacBook".data⟩ }

/-- Witness for C2's amended theorem at a concrete input: the two-candidate
pool with index draws 0, 0 and uuid values "aaaa"/"bbbb" versus
"cccc"/"dddd". -/
theorem C2_seed_determinism_up_to_uuid_witness :
    ceOutcomeA.hardware1.purchase_date = ceOutcomeC.hardware1.purchase_date ∧
    ceOutcomeA.hardware2.purchase_date = ceOutcomeC.hardware2.purchase_date ∧
    ceOutcomeA.hardware1.model = ceOutcomeC.hardware1.model ∧
    ceOutcomeA.hardware2.model = ceOutcomeC.hardware2.model ∧
    ceOutcomeA.hardware1.serial_number = "SN-".data ++ "aaaa".data ∧
    ceOutcomeA.hardware2.serial_number = "SN-".data ++ "bbbb".data ∧
    ("aaaa".data = "cccc".data → "bbbb".data = "dddd".data → ceOutcomeA = ceOutcomeC) :=
  C2_seed_determinism_up_to_uuid cePool 0 0 "aaaa".data "bbbb".data "cccc".data "dddd".data
    ceOutcomeA ceOutcomeC (by decide) (by decide)

/-- Embeds Python `s.zfill(w)`: left-pad with the digit 0 up to width `w`. -/
def zfill (w : Nat) (s : Str) : Str :=
  List.replicate (w - s.length) '0' ++ s

/-- Embeds the per-iteration laptop asset tag computed by
`OffBoardMultipleUserTask.setup_goal` (loop.py 478):
`"P" + str(id(self) % (10 ** 8)).zfill(8)`, where `id(self)` is the CPython
object identity of the task instance — fixed for the object's lifetime, so
embedded as the parameter `idSelf`. -/
def laptopAssetTag (idSelf : Nat) : Str :=
  'P' :: zfill 8 (Nat.toDigits 10 (idSelf % 10 ^ 8))

/-- The per-iteration generated entities of
`OffBoardMultipleUserTask.setup_goal` (loop.py 472-499): the user full name
assembled from four fresh fake-name draws, and the laptop asset tag. -/
structure OffboardIterationData where
  user_full_name : Str
  laptop_asset_tag : Str
  deriving DecidableEq

/-- Embeds the entity-generating loop of `OffBoardMultipleUserTask.setup_goal`
(loop.py 473-499): iteration `k` draws two fresh first names and two fresh
last names from the fake-name generator (embedded as the streams `firstNames`
and `lastNames`, consumed two per iteration) to build the user full name, and
computes the laptop asset tag from the loop-invariant `id(self)`. -/
def offboardSetupEntities (num_users idSelf : Nat) (firstNames lastNames : Nat → Str) :
    List OffboardIterationData :=
  (List.range num_users).map (fun k =>
    { user_full_name :=
        (firstNames (2 * k) ++ "-".data ++ firstNames (2 * k + 1)) ++ " ".data ++
          (lastNames (2 * k) ++ "-".data ++ lastNames (2 * k + 1))
      laptop_asset_tag := laptopAssetTag idSelf })

/-- C4: evaluating the code at the failing input `num_users = 2`, the two
per-iteration laptop asset tags generated by
`OffBoardMultipleUserTask.setup_goal` are the same string
`"P" + str(id(self) % 10**8).zfill(8)` — for every object identity and
whatever the fake name streams yield — so the generated identifiers are not
pairwise distinct across iterations. -/
theorem C4_offboard_asset_tags_collide (idSelf : Nat) (firstNames lastNames : Nat → Str) :
    (offboardSetupEntities 2 idSelf firstNames lastNames).map
        (fun d => d.laptop_asset_tag) =
      [laptopAssetTag idSelf, laptopAssetTag idSelf] := by
  rfl
